import Mathlib

/-!
Shallow embedding of the benchmark harness of the sudoku repository
(src/performance/benchmark_annealing.py, benchmark_backtrack.py,
benchmark_projection.py), together with proofs about its specification.

Python floats are modelled by exact rationals (ℚ); Python `int()` is
modelled by truncation toward zero; numpy's NaN result on an empty
average is modelled by `Option.none`; raising an exception is modelled
by an explicit error constructor.
-/

namespace Sudoku

/-- Python `str.strip()`: remove leading and trailing whitespace. -/
def pyStrip (s : List Char) : List Char :=
  ((s.dropWhile Char.isWhitespace).reverse.dropWhile Char.isWhitespace).reverse

/-- Parsing of the solver's two-part stdout, from benchmark_annealing.py
lines 168–170 (and identically at lines 95–97, 258–260, 340–342):
`state = output[:output.find('\n')].strip()` and
`final = output[output.find('\n')+1:].strip()`.  When the output has no
newline, Python `find` returns -1, so the slices are `output[:-1]`
(all but the last character) and `output[0:]` (the whole string). -/
def parseSolverOutput (out : List Char) : List Char × List Char :=
  match out.findIdx? (· = '\n') with
  | some i => (pyStrip (out.take i), pyStrip (out.drop (i + 1)))
  | none => (pyStrip out.dropLast, pyStrip out)

/-- `puzzle.replace('.', '_')` applied to one corpus line. -/
def replaceBlanks (line : List Char) : List Char :=
  line.map fun c => if c = '.' then '_' else c

/-- Python slice `l[a:b]` for natural bounds. -/
def pySlice (l : List Char) (a b : ℕ) : List Char := (l.drop a).take (b - a)

/-- Row `i` of the grid built for one top1465 corpus line by
benchmark_annealing.benchmark_top1465_geometric (line 198),
benchmark_annealing.benchmark_top1465_remelt (line 287) and
benchmark_projection.benchmark_top1465 (line 87):
`puzzle.replace('.', '_')[i:i+9]` for `i in range(9)`. -/
def top1465RowsAnnealing (line : List Char) : List (List Char) :=
  (List.range 9).map fun i => pySlice (replaceBlanks line) i (i + 9)

/-- Row `i` of the grid built by benchmark_backtrack.bench_top1465
(line 41): `puzzle.replace('.', '_')[i*9:(i+1)*9]`. -/
def top1465RowsBacktrack (line : List Char) : List (List Char) :=
  (List.range 9).map fun i => pySlice (replaceBlanks line) (i * 9) ((i + 1) * 9)

/-- Modelled from the spec: row `i` of the converted grid consists of
characters `9*i` through `9*i+8` of the corpus line, with `.` replaced
by `_`.  Stated for comparison with the source conversions above. -/
def specTop1465Rows (line : List Char) : List (List Char) :=
  (List.range 9).map fun i => pySlice (replaceBlanks line) (9 * i) (9 * i + 9)

/-- A concrete 81-character corpus line whose row `r` consists of nine
copies of the digit `r`. -/
def c1Line : List Char :=
  ("000000000111111111222222222333333333444444444555555555666666666777777777888888888").toList

/-- Python `int()` on a rational: truncation toward zero. -/
def pyInt (q : ℚ) : ℤ := if 0 ≤ q then ⌊q⌋ else ⌈q⌉

/-- The geometric schedule generation loop of
benchmark_annealing.benchmark_paper_geometric, lines 145–153 (repeated
verbatim in benchmark_top1465_geometric, lines 234–242):

    temperature = copy.copy(start_temp)
    total_iters = 0
    iterations = 1
    while total_iters < 100_000:
        schedule += f'\x7btemperature\x7d \x7bint(iterations)\x7d\n'
        temperature *= 0.99
        iterations *= 1.01
        total_iters += iterations

Fuel-indexed; returns the emitted (temperature, int(iterations)) pairs
plus the final value of `total_iters`, or `none` if the fuel runs out
before the loop condition fails. -/
def geometricScheduleLoop : ℕ → ℚ → ℚ → ℚ → Option (List (ℚ × ℤ) × ℚ)
  | 0, _, _, _ => none
  | fuel + 1, temperature, iters, totalIters =>
    if totalIters < 100000 then
      match geometricScheduleLoop fuel (temperature * (99 / 100)) (iters * (101 / 100))
          (totalIters + iters * (101 / 100)) with
      | some (s, t) => some ((temperature, pyInt iters) :: s, t)
      | none => none
    else
      some ([], totalIters)

/-- The schedule emitted for a given `start_temp` (the loop above always
terminates within 100000 iterations, see
`geometricScheduleLoop_isSome`). -/
def geometricSchedule (start : ℚ) : List (ℚ × ℤ) :=
  match geometricScheduleLoop 100001 start 1 0 with
  | some (s, _) => s
  | none => []

/-- The final value of the `total_iters` accumulator for a given
`start_temp`. -/
def geometricScheduleTotal (start : ℚ) : ℚ :=
  match geometricScheduleLoop 100001 start 1 0 with
  | some (_, t) => t
  | none => 0

/-- Claim C4 as stated: for every positive start temperature the
generated schedule's k-th pair is (start × 0.99^k, ⌈1.01^k⌉), and the
cumulative iteration count of the emitted schedule reaches 100000 when
generation stops. -/
def c4Claim : Prop :=
  ∀ start : ℚ, 0 < start →
    geometricSchedule start =
      (List.range (geometricSchedule start).length).map
        (fun k => (start * (99 / 100) ^ k, ⌈((101 : ℚ) / 100) ^ k⌉))
    ∧ (100000 : ℤ) ≤ ((geometricSchedule start).map Prod.snd).sum

/-- Result of one blocking call to the external solver process:
either `subprocess.TimeoutExpired` was raised, or the process exited
with a return code, stdout and stderr. -/
inductive SolverResult where
  | timedOut
  | exited (returncode : ℤ) (stdout : List Char) (stderr : List Char)
deriving DecidableEq

/-- The external observations one iteration of the reanneal `while True`
loop depends on: the value of `time.perf_counter() - start_time` at the
top-of-loop deadline check, the solver invocation's result, and the
clock reading used when a SUCCESS time is recorded. -/
structure LoopEvent where
  elapsed : ℚ
  result : SolverResult
  successElapsed : ℚ
deriving DecidableEq

/-- Observable data of one performed solver invocation: the elapsed
value at the preceding deadline check, the base temperature used to
build the schedule passed on stdin, the hint-file argument passed
(`none` when `args == []`), the hint-file content after the invocation
was handled, and the invocation's result. -/
structure InvocationRecord where
  checkElapsed : ℚ
  tempUsed : ℚ
  argsUsed : Option (List Char)
  hintAfter : Option (List Char)
  result : SolverResult
deriving DecidableEq

/-- How a trial's `while True` loop ends: `success ms` when
`times[iteration]` is set to a solve time, `noResult` when the loop is
left by the deadline check or by `TimeoutExpired` (the times entry
stays -1), `fatal` when the non-zero-exit `Exception` is raised, and
`outOfScript` when the event script is exhausted (a modelling artifact:
the real loop would keep running). -/
inductive TrialEnd where
  | success (ms : ℚ)
  | noResult
  | fatal (msg : List Char)
  | outOfScript
deriving DecidableEq

/-- Temperature update at the top of each loop iteration in the
geometric variants (benchmark_annealing.py lines 142–143 and 231–232):
`if start_temp < 0.01: start_temp = 1.` -/
def geometricTempReset (t : ℚ) : ℚ := if t < 1 / 100 then 1 else t

/-- Temperature update at the top of each loop iteration in the remelt
variants (benchmark_annealing.py lines 73–76 and 318–321):
`if start_temp < 0.01: start_temp = 1.  else: start_temp *= 0.99` -/
def remeltTempStep (t : ℚ) : ℚ := if t < 1 / 100 then 1 else t * (99 / 100)

/-- The reanneal `while True` loop shared by
benchmark_paper_geometric (lines 138–182), benchmark_paper_remelt
(lines 69–109), benchmark_top1465_geometric (lines 227–272) and
benchmark_top1465_remelt (lines 314–354); the four copies differ only
in the top-of-loop temperature update `tempStep` (and in the schedule
text built from the temperature, which the loop's control flow never
reads back).  Loop body, in source order: break if elapsed > 90; update
`start_temp`; build the schedule from it; invoke the solver; break on
`TimeoutExpired`; raise on non-zero exit; on first line GLASS halve
`start_temp`, truncate and rewrite the hint file with the returned
final state, and continue; on SUCCESS record the elapsed milliseconds
and break; otherwise fall through to the next iteration unchanged. -/
def trialLoop (tempStep : ℚ → ℚ) :
    List LoopEvent → ℚ → Option (List Char) → List InvocationRecord × TrialEnd
  | [], _, _ => ([], TrialEnd.outOfScript)
  | e :: rest, startTemp, hint =>
    if 90 < e.elapsed then ([], TrialEnd.noResult)
    else
      match e.result with
      | SolverResult.timedOut =>
        ([⟨e.elapsed, tempStep startTemp, hint, hint, e.result⟩], TrialEnd.noResult)
      | SolverResult.exited code out err =>
        if code ≠ 0 then
          ([⟨e.elapsed, tempStep startTemp, hint, hint, e.result⟩],
           TrialEnd.fatal (out ++ '\n' :: err))
        else if (parseSolverOutput out).1 = ("GLASS").toList then
          (⟨e.elapsed, tempStep startTemp, hint, some (parseSolverOutput out).2, e.result⟩ ::
            (trialLoop tempStep rest (tempStep startTemp * (1 / 2))
              (some (parseSolverOutput out).2)).1,
           (trialLoop tempStep rest (tempStep startTemp * (1 / 2))
              (some (parseSolverOutput out).2)).2)
        else if (parseSolverOutput out).1 = ("SUCCESS").toList then
          ([⟨e.elapsed, tempStep startTemp, hint, hint, e.result⟩],
           TrialEnd.success (e.successElapsed * 1000))
        else
          (⟨e.elapsed, tempStep startTemp, hint, hint, e.result⟩ ::
            (trialLoop tempStep rest (tempStep startTemp) hint).1,
           (trialLoop tempStep rest (tempStep startTemp) hint).2)

/-- One trial of the geometric-schedule variants: fresh hint file,
`start_temp = 1.`, empty args. -/
def geomTrial (s : List LoopEvent) : List InvocationRecord × TrialEnd :=
  trialLoop geometricTempReset s 1 none

/-- One trial of the remelt-schedule variants: fresh hint file,
`start_temp = 1.`, empty args. -/
def remeltTrial (s : List LoopEvent) : List InvocationRecord × TrialEnd :=
  trialLoop remeltTempStep s 1 none

/-- Result of the `for iteration in range(4)` trial loop over one
puzzle: the `times` vector (entry -1 for a trial that set no time), or
the propagated non-zero-exit `Exception`, or `incomplete` when some
trial's event script ran out. -/
inductive TrialsOut where
  | ok (times : List ℚ)
  | fatal (msg : List Char)
  | incomplete
deriving DecidableEq

/-- The per-puzzle trial loop: each trial starts from `start_temp = 1.`
with a fresh, empty hint file; its `times` entry is its solve time on
SUCCESS and stays -1 otherwise; the non-zero-exit `Exception` is not
caught and propagates. -/
def runTrialsWith (tempStep : ℚ → ℚ) : List (List LoopEvent) → TrialsOut
  | [] => TrialsOut.ok []
  | s :: rest =>
    match (trialLoop tempStep s 1 none).2 with
    | TrialEnd.success ms =>
      match runTrialsWith tempStep rest with
      | TrialsOut.ok ts => TrialsOut.ok (ms :: ts)
      | x => x
    | TrialEnd.noResult =>
      match runTrialsWith tempStep rest with
      | TrialsOut.ok ts => TrialsOut.ok ((-1) :: ts)
      | x => x
    | TrialEnd.fatal m => TrialsOut.fatal m
    | TrialEnd.outOfScript => TrialsOut.incomplete

/-- How the whole benchmark run over the puzzle list ends: all puzzles
processed, or aborted by the propagated non-zero-exit `Exception`, or
`incomplete` (event script exhausted, modelling artifact). -/
inductive BenchEnd where
  | done
  | aborted (msg : List Char)
  | incomplete
deriving DecidableEq

/-- numpy `np.average` over a selected list of entries; `none` models
the NaN produced (with a warning) on an empty selection. -/
def npAverage (xs : List ℚ) : Option ℚ :=
  if xs.isEmpty then none else some (xs.sum / xs.length)

/-- `np.count_nonzero(times[times < 0.]) / 4.` as written in every
aggregation line of benchmark_annealing.py. -/
def fractionUnsolved (times : List ℚ) : ℚ :=
  ((times.filter fun x => x < 0).filter fun x => x ≠ 0).length / 4

/-- Per-puzzle aggregation of benchmark_paper_geometric (lines 185–188)
and benchmark_top1465_geometric (lines 275–278):
`np.average(times[times >= 0.])` with no all-failed guard. -/
def aggGeometric (times : List ℚ) : ℚ × Option ℚ :=
  (fractionUnsolved times, npAverage (times.filter fun x => 0 ≤ x))

/-- Per-puzzle aggregation of benchmark_paper_remelt (lines 112–115)
and benchmark_top1465_remelt (lines 357–360):
`np.average(times[times >= 0.]) if not (times < 0).all() else 0.` -/
def aggRemelt (times : List ℚ) : ℚ × Option ℚ :=
  (fractionUnsolved times,
   if ¬ (∀ x ∈ times, x < 0) then npAverage (times.filter fun x => 0 ≤ x)
   else some 0)

/-- The outer `for i, puzzle in enumerate(puzzles)` loop: one aggregate
record is written per puzzle; a propagated `Exception` aborts the whole
run, leaving the records of the already-processed puzzles only. -/
def runPuzzlesWith (tempStep : ℚ → ℚ) (agg : List ℚ → ℚ × Option ℚ) :
    List (List (List LoopEvent)) → List (ℚ × Option ℚ) × BenchEnd
  | [] => ([], BenchEnd.done)
  | p :: rest =>
    match runTrialsWith tempStep p with
    | TrialsOut.ok ts =>
      (agg ts :: (runPuzzlesWith tempStep agg rest).1, (runPuzzlesWith tempStep agg rest).2)
    | TrialsOut.fatal m => ([], BenchEnd.aborted m)
    | TrialsOut.incomplete => ([], BenchEnd.incomplete)

/-- benchmark_paper_geometric / benchmark_top1465_geometric as a whole:
geometric temperature update, unguarded average. -/
def benchmarkGeometric : List (List (List LoopEvent)) → List (ℚ × Option ℚ) × BenchEnd :=
  runPuzzlesWith geometricTempReset aggGeometric

/-- benchmark_paper_remelt / benchmark_top1465_remelt as a whole:
remelt temperature update, all-failed-guarded average. -/
def benchmarkRemelt : List (List (List LoopEvent)) → List (ℚ × Option ℚ) × BenchEnd :=
  runPuzzlesWith remeltTempStep aggRemelt

/-- benchmark_projection._thread_benchmark_paper (lines 57–76): one
worker's run over a puzzle file.  Returns `Except.error` for the raised
`Exception` on non-zero exit; `some (-1)` for EXHAUSTED or
`TimeoutExpired`; the elapsed milliseconds for ALL SATISFIED; and
`none` — Python's implicit `None` — when the first output line is
neither tag. -/
def threadBenchmarkPaper (startTime endTime : ℚ) (res : SolverResult) :
    Except (List Char) (Option ℚ) :=
  match res with
  | SolverResult.timedOut => Except.ok (some (-1))
  | SolverResult.exited code out err =>
    if code ≠ 0 then Except.error err
    else if (parseSolverOutput out).1 = ("EXHAUSTED").toList then Except.ok (some (-1))
    else if (parseSolverOutput out).1 = ("ALL SATISFIED").toList then
      Except.ok (some ((endTime - startTime) * 1000))
    else Except.ok none

/-- benchmark_projection._thread_benchmark_top1465 (lines 112–134):
identical decision logic to the paper worker (it differs only in
writing the puzzle text to a temporary file first). -/
def threadBenchmarkTop1465 (startTime endTime : ℚ) (res : SolverResult) :
    Except (List Char) (Option ℚ) :=
  match res with
  | SolverResult.timedOut => Except.ok (some (-1))
  | SolverResult.exited code out err =>
    if code ≠ 0 then Except.error err
    else if (parseSolverOutput out).1 = ("EXHAUSTED").toList then Except.ok (some (-1))
    else if (parseSolverOutput out).1 = ("ALL SATISFIED").toList then
      Except.ok (some ((endTime - startTime) * 1000))
    else Except.ok none

/-- stdout of a first solver invocation that ends GLASS. -/
def glassOut1 : List Char := ("GLASS\nfirst glassy board").toList

/-- stdout of a second solver invocation that ends GLASS. -/
def glassOut2 : List Char := ("GLASS\nsecond glassy board").toList

/-- stdout of a solver invocation that ends SUCCESS. -/
def successOut : List Char := ("SUCCESS\nsolved board").toList

/-- stdout of an exit-0 invocation whose first line is no known tag. -/
def weirdOut : List Char := ("UNKNOWN TAG\nsome board").toList

/-- Event: first invocation returning GLASS, well before the deadline. -/
def evGlass1 : LoopEvent := ⟨10, SolverResult.exited 0 glassOut1 [], 10⟩

/-- Event: second invocation returning GLASS. -/
def evGlass2 : LoopEvent := ⟨20, SolverResult.exited 0 glassOut2 [], 20⟩

/-- Event: invocation returning SUCCESS. -/
def evSuccess : LoopEvent := ⟨30, SolverResult.exited 0 successOut [], 30⟩

/-- Event: the deadline check sees exactly 90 elapsed seconds
(remaining budget exactly zero) and the invocation returns SUCCESS. -/
def evDeadlineEdge : LoopEvent := ⟨90, SolverResult.exited 0 successOut [], 90⟩

/-- Event: the solver process exits with a non-zero return code. -/
def evCrash : LoopEvent :=
  ⟨0, SolverResult.exited 1 ("crash output").toList ("crash trace").toList, 0⟩

/-- Event: the invocation exceeds its time box. -/
def evTimeout : LoopEvent := ⟨5, SolverResult.timedOut, 5⟩

/-- Event: exit 0 with an unrecognised first output line. -/
def evWeird : LoopEvent := ⟨7, SolverResult.exited 0 weirdOut [], 7⟩

/-- The schedule loop terminates: with `iterations ≥ 1` the accumulator
grows by at least 1 per pass, so `total + fuel ≥ 100000` passes suffice. -/
lemma geometricScheduleLoop_isSome (f : ℕ) :
    ∀ T I total : ℚ, 1 ≤ I → (100000 : ℚ) ≤ total + f →
      (geometricScheduleLoop (f + 1) T I total).isSome := by
  induction f with
  | zero =>
    intro T I total hI h
    push_cast at h
    unfold geometricScheduleLoop
    rw [if_neg (not_lt.2 (by linarith))]
    rfl
  | succ f ih =>
    intro T I total hI h
    unfold geometricScheduleLoop
    by_cases hc : total < 100000
    · rw [if_pos hc]
      have hI2 : (1 : ℚ) ≤ I * (101 / 100) := by nlinarith
      have h2 : (100000 : ℚ) ≤ (total + I * (101 / 100)) + f := by
        push_cast at h ⊢
        nlinarith
      have hrec := ih (T * (99 / 100)) (I * (101 / 100)) (total + I * (101 / 100)) hI2 h2
      cases hres : geometricScheduleLoop (f + 1) (T * (99 / 100)) (I * (101 / 100))
          (total + I * (101 / 100)) with
      | none => rw [hres] at hrec; simp at hrec
      | some p => obtain ⟨s, t⟩ := p; rfl
    · rw [if_neg hc]
      rfl

/-- When the loop stops, the final value of the accumulator is at least
the 100000 budget. -/
lemma geometricScheduleLoop_final_total (f : ℕ) :
    ∀ (T I total : ℚ) (s : List (ℚ × ℤ)) (t : ℚ),
      geometricScheduleLoop f T I total = some (s, t) → (100000 : ℚ) ≤ t := by
  induction f with
  | zero => intro T I total s t h; simp [geometricScheduleLoop] at h
  | succ f ih =>
    intro T I total s t h
    unfold geometricScheduleLoop at h
    by_cases hc : total < 100000
    · rw [if_pos hc] at h
      cases hres : geometricScheduleLoop f (T * (99 / 100)) (I * (101 / 100))
          (total + I * (101 / 100)) with
      | none => rw [hres] at h; cases h
      | some p =>
        obtain ⟨s2, t2⟩ := p
        rw [hres] at h
        simp only [Option.some.injEq, Prod.mk.injEq] at h
        rw [← h.2]
        exact ih _ _ _ _ _ hres
    · rw [if_neg hc] at h
      simp only [Option.some.injEq, Prod.mk.injEq] at h
      rw [← h.2]
      exact not_lt.1 hc

/-- Unfolding one pass of the schedule loop while the accumulator is
still below budget. -/
lemma geometricScheduleLoop_cons {f : ℕ} {T I total : ℚ} {s : List (ℚ × ℤ)} {t : ℚ}
    (hlt : total < 100000)
    (h : geometricScheduleLoop (f + 1) T I total = some (s, t)) :
    ∃ s2, s = (T, pyInt I) :: s2 ∧
      geometricScheduleLoop f (T * (99 / 100)) (I * (101 / 100))
        (total + I * (101 / 100)) = some (s2, t) := by
  unfold geometricScheduleLoop at h
  rw [if_pos hlt] at h
  cases hres : geometricScheduleLoop f (T * (99 / 100)) (I * (101 / 100))
      (total + I * (101 / 100)) with
  | none => rw [hres] at h; cases h
  | some p =>
    obtain ⟨s2, t2⟩ := p
    rw [hres] at h
    simp only [Option.some.injEq, Prod.mk.injEq] at h
    exact ⟨s2, h.1.symm, by rw [h.2]⟩

/-- The k-th emitted pair of the schedule loop. -/
lemma geometricScheduleLoop_shape (f : ℕ) :
    ∀ (T I total : ℚ) (s : List (ℚ × ℤ)) (t : ℚ),
      geometricScheduleLoop f T I total = some (s, t) →
      ∀ k, k < s.length →
        s.get? k = some (T * (99 / 100) ^ k, pyInt (I * (101 / 100) ^ k)) := by
  induction f with
  | zero => intro T I total s t h; simp [geometricScheduleLoop] at h
  | succ f ih =>
    intro T I total s t h k hk
    by_cases hc : total < 100000
    · obtain ⟨s2, hs2, hrec⟩ := geometricScheduleLoop_cons hc h
      subst hs2
      cases k with
      | zero => simp
      | succ k =>
        have hk2 : k < s2.length := by simpa using hk
        have := ih _ _ _ _ _ hrec k hk2
        have e1 : T * (99 / 100) * ((99 : ℚ) / 100) ^ k = T * (99 / 100) ^ (k + 1) := by
          ring
        have e2 : I * (101 / 100) * ((101 : ℚ) / 100) ^ k = I * (101 / 100) ^ (k + 1) := by
          ring
        rw [e1, e2] at this
        simpa using this
    · unfold geometricScheduleLoop at h
      rw [if_neg hc] at h
      simp only [Option.some.injEq, Prod.mk.injEq] at h
      rw [← h.1] at hk
      simp at hk

/-- Loop step: the top-of-loop deadline check breaks out, performing no
invocation, as soon as elapsed exceeds 90. -/
lemma trialLoop_deadline (tempStep : ℚ → ℚ) (e : LoopEvent) (rest : List LoopEvent)
    (temp : ℚ) (hint : Option (List Char)) (h : 90 < e.elapsed) :
    trialLoop tempStep (e :: rest) temp hint = ([], TrialEnd.noResult) := by
  simp [trialLoop, h]

/-- Loop step: `TimeoutExpired` leaves the loop with no time recorded. -/
lemma trialLoop_timeout (tempStep : ℚ → ℚ) (e : LoopEvent) (rest : List LoopEvent)
    (temp : ℚ) (hint : Option (List Char)) (h90 : ¬ 90 < e.elapsed)
    (hres : e.result = SolverResult.timedOut) :
    trialLoop tempStep (e :: rest) temp hint =
      ([⟨e.elapsed, tempStep temp, hint, hint, e.result⟩], TrialEnd.noResult) := by
  simp [trialLoop, h90, hres]

/-- Loop step: a non-zero exit raises the `Exception`. -/
lemma trialLoop_fatal_step (tempStep : ℚ → ℚ) (e : LoopEvent) (rest : List LoopEvent)
    (temp : ℚ) (hint : Option (List Char)) (c : ℤ) (out err : List Char)
    (h90 : ¬ 90 < e.elapsed) (hres : e.result = SolverResult.exited c out err)
    (hc : c ≠ 0) :
    trialLoop tempStep (e :: rest) temp hint =
      ([⟨e.elapsed, tempStep temp, hint, hint, e.result⟩],
       TrialEnd.fatal (out ++ '\n' :: err)) := by
  simp [trialLoop, h90, hres, hc]

/-- Loop step: on GLASS the base temperature is halved, the hint file is
truncated and rewritten with the returned final state, and the loop
continues. -/
lemma trialLoop_glass_step (tempStep : ℚ → ℚ) (e : LoopEvent) (rest : List LoopEvent)
    (temp : ℚ) (hint : Option (List Char)) (out err : List Char)
    (h90 : ¬ 90 < e.elapsed) (hres : e.result = SolverResult.exited 0 out err)
    (htag : (parseSolverOutput out).1 = ("GLASS").toList) :
    trialLoop tempStep (e :: rest) temp hint =
      (⟨e.elapsed, tempStep temp, hint, some (parseSolverOutput out).2, e.result⟩ ::
        (trialLoop tempStep rest (tempStep temp * (1 / 2))
          (some (parseSolverOutput out).2)).1,
       (trialLoop tempStep rest (tempStep temp * (1 / 2))
          (some (parseSolverOutput out).2)).2) := by
  simp [trialLoop, h90, hres, htag]

/-- Loop step: on SUCCESS the elapsed milliseconds are recorded and the
loop breaks. -/
lemma trialLoop_success_step (tempStep : ℚ → ℚ) (e : LoopEvent) (rest : List LoopEvent)
    (temp : ℚ) (hint : Option (List Char)) (out err : List Char)
    (h90 : ¬ 90 < e.elapsed) (hres : e.result = SolverResult.exited 0 out err)
    (htag : (parseSolverOutput out).1 = ("SUCCESS").toList) :
    trialLoop tempStep (e :: rest) temp hint =
      ([⟨e.elapsed, tempStep temp, hint, hint, e.result⟩],
       TrialEnd.success (e.successElapsed * 1000)) := by
  have hneq : ("SUCCESS").toList ≠ ("GLASS").toList := by decide
  simp [trialLoop, h90, hres, htag, hneq]

/-- Loop step: an exit-0 result whose first line is neither GLASS nor
SUCCESS falls through: the loop continues with the same base
temperature value and the same hint state. -/
lemma trialLoop_unknown_step (tempStep : ℚ → ℚ) (e : LoopEvent) (rest : List LoopEvent)
    (temp : ℚ) (hint : Option (List Char)) (out err : List Char)
    (h90 : ¬ 90 < e.elapsed) (hres : e.result = SolverResult.exited 0 out err)
    (h1 : (parseSolverOutput out).1 ≠ ("GLASS").toList)
    (h2 : (parseSolverOutput out).1 ≠ ("SUCCESS").toList) :
    trialLoop tempStep (e :: rest) temp hint =
      (⟨e.elapsed, tempStep temp, hint, hint, e.result⟩ ::
        (trialLoop tempStep rest (tempStep temp) hint).1,
       (trialLoop tempStep rest (tempStep temp) hint).2) := by
  simp only [trialLoop, hres]
  rw [if_neg h90, if_neg (by decide : ¬ ((0 : ℤ) ≠ 0)), if_neg h1, if_neg h2]

/-- Every performed invocation passed the deadline check: its recorded
check value is at most 90. -/
lemma trialLoop_check_le (tempStep : ℚ → ℚ) :
    ∀ (s : List LoopEvent) (temp : ℚ) (hint : Option (List Char))
      (rec : InvocationRecord), rec ∈ (trialLoop tempStep s temp hint).1 →
      rec.checkElapsed ≤ 90 := by
  intro s
  induction s with
  | nil => intro temp hint rec hmem; simp [trialLoop] at hmem
  | cons e rest ih =>
    intro temp hint rec hmem
    by_cases h90 : 90 < e.elapsed
    · rw [trialLoop_deadline tempStep e rest temp hint h90] at hmem
      simp at hmem
    · cases hres : e.result with
      | timedOut =>
        rw [trialLoop_timeout tempStep e rest temp hint h90 hres] at hmem
        simp at hmem
        rw [hmem]
        exact not_lt.1 h90
      | exited c out err =>
        by_cases hc : c = 0
        · subst hc
          by_cases hg : (parseSolverOutput out).1 = ("GLASS").toList
          · rw [trialLoop_glass_step tempStep e rest temp hint out err h90 hres hg] at hmem
            rcases List.mem_cons.1 hmem with h | h
            · rw [h]; exact not_lt.1 h90
            · exact ih _ _ _ h
          · by_cases hsucc : (parseSolverOutput out).1 = ("SUCCESS").toList
            · rw [trialLoop_success_step tempStep e rest temp hint out err h90 hres hsucc]
                at hmem
              simp at hmem
              rw [hmem]
              exact not_lt.1 h90
            · rw [trialLoop_unknown_step tempStep e rest temp hint out err h90 hres hg hsucc]
                at hmem
              rcases List.mem_cons.1 hmem with h | h
              · rw [h]; exact not_lt.1 h90
              · exact ih _ _ _ h
        · rw [trialLoop_fatal_step tempStep e rest temp hint c out err h90 hres hc] at hmem
          simp at hmem
          rw [hmem]
          exact not_lt.1 h90

/-- If some performed invocation exited non-zero, the trial ends in the
raised `Exception` (it is the last invocation of the trial). -/
lemma trialLoop_fatal_of_mem (tempStep : ℚ → ℚ) :
    ∀ (s : List LoopEvent) (temp : ℚ) (hint : Option (List Char))
      (rec : InvocationRecord) (c : ℤ) (out err : List Char),
      rec ∈ (trialLoop tempStep s temp hint).1 →
      rec.result = SolverResult.exited c out err → c ≠ 0 →
      (trialLoop tempStep s temp hint).2 = TrialEnd.fatal (out ++ '\n' :: err) := by
  intro s
  induction s with
  | nil => intro temp hint rec c out err hmem; simp [trialLoop] at hmem
  | cons e rest ih =>
    intro temp hint rec c out err hmem hrec hc
    by_cases h90 : 90 < e.elapsed
    · rw [trialLoop_deadline tempStep e rest temp hint h90] at hmem
      simp at hmem
    · cases hres : e.result with
      | timedOut =>
        rw [trialLoop_timeout tempStep e rest temp hint h90 hres] at hmem
        simp at hmem
        rw [hmem, hres] at hrec
        cases hrec
      | exited c2 out2 err2 =>
        by_cases hc2 : c2 = 0
        · subst hc2
          by_cases hg : (parseSolverOutput out2).1 = ("GLASS").toList
          · rw [trialLoop_glass_step tempStep e rest temp hint out2 err2 h90 hres hg] at hmem
            rw [trialLoop_glass_step tempStep e rest temp hint out2 err2 h90 hres hg]
            rcases List.mem_cons.1 hmem with h | h
            · rw [h, hres] at hrec
              simp only [SolverResult.exited.injEq] at hrec
              exact absurd hrec.1.symm hc
            · exact ih _ _ _ _ _ _ h hrec hc
          · by_cases hsucc : (parseSolverOutput out2).1 = ("SUCCESS").toList
            · rw [trialLoop_success_step tempStep e rest temp hint out2 err2 h90 hres hsucc]
                at hmem
              simp at hmem
              rw [hmem, hres] at hrec
              simp only [SolverResult.exited.injEq] at hrec
              exact absurd hrec.1.symm hc
            · rw [trialLoop_unknown_step tempStep e rest temp hint out2 err2 h90 hres hg
                hsucc] at hmem
              rw [trialLoop_unknown_step tempStep e rest temp hint out2 err2 h90 hres hg
                hsucc]
              rcases List.mem_cons.1 hmem with h | h
              · rw [h, hres] at hrec
                simp only [SolverResult.exited.injEq] at hrec
                exact absurd hrec.1.symm hc
              · exact ih _ _ _ _ _ _ h hrec hc
        · rw [trialLoop_fatal_step tempStep e rest temp hint c2 out2 err2 h90 hres hc2]
            at hmem
          rw [trialLoop_fatal_step tempStep e rest temp hint c2 out2 err2 h90 hres hc2]
          simp at hmem
          rw [hmem, hres] at hrec
          simp only [SolverResult.exited.injEq] at hrec
          rw [hrec.2.1, hrec.2.2]

/-- If some performed invocation timed out, the trial ends with no
result recorded (and no error raised). -/
lemma trialLoop_noResult_of_mem_timeout (tempStep : ℚ → ℚ) :
    ∀ (s : List LoopEvent) (temp : ℚ) (hint : Option (List Char))
      (rec : InvocationRecord),
      rec ∈ (trialLoop tempStep s temp hint).1 →
      rec.result = SolverResult.timedOut →
      (trialLoop tempStep s temp hint).2 = TrialEnd.noResult := by
  intro s
  induction s with
  | nil => intro temp hint rec hmem; simp [trialLoop] at hmem
  | cons e rest ih =>
    intro temp hint rec hmem hrec
    by_cases h90 : 90 < e.elapsed
    · rw [trialLoop_deadline tempStep e rest temp hint h90] at hmem
      simp at hmem
    · cases hres : e.result with
      | timedOut =>
        rw [trialLoop_timeout tempStep e rest temp hint h90 hres]
      | exited c2 out2 err2 =>
        by_cases hc2 : c2 = 0
        · subst hc2
          by_cases hg : (parseSolverOutput out2).1 = ("GLASS").toList
          · rw [trialLoop_glass_step tempStep e rest temp hint out2 err2 h90 hres hg] at hmem
            rw [trialLoop_glass_step tempStep e rest temp hint out2 err2 h90 hres hg]
            rcases List.mem_cons.1 hmem with h | h
            · rw [h, hres] at hrec
              cases hrec
            · exact ih _ _ _ h hrec
          · by_cases hsucc : (parseSolverOutput out2).1 = ("SUCCESS").toList
            · rw [trialLoop_success_step tempStep e rest temp hint out2 err2 h90 hres hsucc]
                at hmem
              simp at hmem
              rw [hmem, hres] at hrec
              cases hrec
            · rw [trialLoop_unknown_step tempStep e rest temp hint out2 err2 h90 hres hg
                hsucc] at hmem
              rw [trialLoop_unknown_step tempStep e rest temp hint out2 err2 h90 hres hg
                hsucc]
              rcases List.mem_cons.1 hmem with h | h
              · rw [h, hres] at hrec
                cases hrec
              · exact ih _ _ _ h hrec
        · rw [trialLoop_fatal_step tempStep e rest temp hint c2 out2 err2 h90 hres hc2]
            at hmem
          simp at hmem
          rw [hmem, hres] at hrec
          cases hrec

/-- A trial that raises the `Exception` makes the whole 4-trial loop
raise it, regardless of the trials scheduled after it. -/
lemma runTrialsWith_fatal (tempStep : ℚ → ℚ) :
    ∀ (t1 : List (List LoopEvent)) (ms : List ℚ) (s : List LoopEvent)
      (m : List Char) (t2 : List (List LoopEvent)),
      runTrialsWith tempStep t1 = TrialsOut.ok ms →
      (trialLoop tempStep s 1 none).2 = TrialEnd.fatal m →
      runTrialsWith tempStep (t1 ++ s :: t2) = TrialsOut.fatal m := by
  intro t1
  induction t1 with
  | nil =>
    intro ms s m t2 _ h2
    simp only [List.nil_append, runTrialsWith, h2]
  | cons a t1 ih =>
    intro ms s m t2 h1 h2
    simp only [runTrialsWith] at h1
    cases hA : (trialLoop tempStep a 1 none).2 with
    | success ms0 =>
      rw [hA] at h1
      cases hB : runTrialsWith tempStep t1 with
      | ok msB =>
        have hstep := ih msB s m t2 hB h2
        simp only [List.cons_append, runTrialsWith, hA, List.append_eq, hstep]
      | fatal mB => rw [hB] at h1; cases h1
      | incomplete => rw [hB] at h1; cases h1
    | noResult =>
      rw [hA] at h1
      cases hB : runTrialsWith tempStep t1 with
      | ok msB =>
        have hstep := ih msB s m t2 hB h2
        simp only [List.cons_append, runTrialsWith, hA, List.append_eq, hstep]
      | fatal mB => rw [hB] at h1; cases h1
      | incomplete => rw [hB] at h1; cases h1
    | fatal mA => rw [hA] at h1; cases h1
    | outOfScript => rw [hA] at h1; cases h1

/-- A trial that ends with no result contributes the -1 sentinel, and
the 4-trial loop carries on with the remaining trials. -/
lemma runTrialsWith_noResult (tempStep : ℚ → ℚ) :
    ∀ (t1 : List (List LoopEvent)) (ms1 : List ℚ) (s : List LoopEvent)
      (t2 : List (List LoopEvent)) (ms2 : List ℚ),
      runTrialsWith tempStep t1 = TrialsOut.ok ms1 →
      (trialLoop tempStep s 1 none).2 = TrialEnd.noResult →
      runTrialsWith tempStep t2 = TrialsOut.ok ms2 →
      runTrialsWith tempStep (t1 ++ s :: t2) = TrialsOut.ok (ms1 ++ (-1) :: ms2) := by
  intro t1
  induction t1 with
  | nil =>
    intro ms1 s t2 ms2 h1 h2 h3
    simp only [runTrialsWith] at h1
    cases h1
    simp only [List.nil_append, runTrialsWith, h2, h3]
  | cons a t1 ih =>
    intro ms1 s t2 ms2 h1 h2 h3
    simp only [runTrialsWith] at h1
    cases hA : (trialLoop tempStep a 1 none).2 with
    | success ms0 =>
      rw [hA] at h1
      cases hB : runTrialsWith tempStep t1 with
      | ok msB =>
        rw [hB] at h1
        cases h1
        have hstep := ih msB s t2 ms2 hB h2 h3
        simp only [List.cons_append, runTrialsWith, hA, List.append_eq, hstep]
      | fatal mB => rw [hB] at h1; cases h1
      | incomplete => rw [hB] at h1; cases h1
    | noResult =>
      rw [hA] at h1
      cases hB : runTrialsWith tempStep t1 with
      | ok msB =>
        rw [hB] at h1
        cases h1
        have hstep := ih msB s t2 ms2 hB h2 h3
        simp only [List.cons_append, runTrialsWith, hA, List.append_eq, hstep]
      | fatal mB => rw [hB] at h1; cases h1
      | incomplete => rw [hB] at h1; cases h1
    | fatal mA => rw [hA] at h1; cases h1
    | outOfScript => rw [hA] at h1; cases h1

/-- Processing a prefix of puzzles that all complete, then the rest. -/
lemma runPuzzlesWith_append (tempStep : ℚ → ℚ) (agg : List ℚ → ℚ × Option ℚ) :
    ∀ (pre : List (List (List LoopEvent))) (rs : List (ℚ × Option ℚ)),
      runPuzzlesWith tempStep agg pre = (rs, BenchEnd.done) →
      ∀ rest, runPuzzlesWith tempStep agg (pre ++ rest) =
        (rs ++ (runPuzzlesWith tempStep agg rest).1, (runPuzzlesWith tempStep agg rest).2) := by
  intro pre
  induction pre with
  | nil =>
    intro rs h rest
    simp only [runPuzzlesWith] at h
    cases h
    simp
  | cons p pre ih =>
    intro rs h rest
    simp only [runPuzzlesWith] at h
    cases hP : runTrialsWith tempStep p with
    | ok ts0 =>
      rw [hP] at h
      rw [Prod.mk.injEq] at h
      have hpre : runPuzzlesWith tempStep agg pre =
          ((runPuzzlesWith tempStep agg pre).1, BenchEnd.done) := by
        rw [← h.2]
      have hstep := ih (runPuzzlesWith tempStep agg pre).1 hpre rest
      simp only [List.cons_append, runPuzzlesWith, hP, List.append_eq]
      rw [hstep, ← h.1]
      simp
    | fatal m => rw [hP] at h; cases h
    | incomplete => rw [hP] at h; cases h

/-- A puzzle whose trial loop raises the `Exception` aborts the run at
that puzzle. -/
lemma runPuzzlesWith_fatal_head (tempStep : ℚ → ℚ) (agg : List ℚ → ℚ × Option ℚ)
    (p : List (List LoopEvent)) (m : List Char) (post : List (List (List LoopEvent)))
    (h : runTrialsWith tempStep p = TrialsOut.fatal m) :
    runPuzzlesWith tempStep agg (p :: post) = ([], BenchEnd.aborted m) := by
  simp only [runPuzzlesWith, h]

/-- C1: the top1465 corpus-line conversion of the annealing and
projection benchmarks builds row i from characters i..i+8 (slice
`[i:i+9]`), not from characters 9i..9i+8 as the specification states
— on the concrete line whose row r repeats the digit r, its row 1 is
"000000001" instead of "111111111" — while the backtracking variant's
conversion (slice `[i*9:(i+1)*9]`) matches the specification. -/
theorem c1_top1465_conversion_bug :
    top1465RowsAnnealing c1Line ≠ specTop1465Rows c1Line
    ∧ (top1465RowsAnnealing c1Line).get? 1 = some (("000000001").toList)
    ∧ (specTop1465Rows c1Line).get? 1 = some (("111111111").toList)
    ∧ top1465RowsBacktrack c1Line = specTop1465Rows c1Line := by
  refine ⟨by decide, by decide, by decide, by decide⟩

/-- C4 fails as stated: at start temperature 1 the second emitted pair
carries `int(1.01) = 1` iterations, not `⌈1.01⌉ = 2`. -/
theorem c4_counterexample : ¬ c4Claim := by
  intro hclaim
  obtain ⟨hshape, hsum⟩ := hclaim 1 one_pos
  have h0 : (geometricScheduleLoop 100001 1 1 0).isSome := by
    rw [show (100001 : ℕ) = 100000 + 1 from rfl]
    exact geometricScheduleLoop_isSome 100000 1 1 0 le_rfl (by push_cast; norm_num)
  rw [Option.isSome_iff_exists] at h0
  obtain ⟨⟨s, t⟩, hp⟩ := h0
  have hp1 : geometricScheduleLoop (100000 + 1) 1 1 0 = some (s, t) := hp
  obtain ⟨s1, hs1, hrec1⟩ := geometricScheduleLoop_cons (by norm_num) hp1
  have hrec1a : geometricScheduleLoop (99999 + 1) (1 * (99 / 100)) (1 * (101 / 100))
      (0 + 1 * (101 / 100)) = some (s1, t) := hrec1
  obtain ⟨s2, hs2, hrec2⟩ := geometricScheduleLoop_cons (by norm_num) hrec1a
  have hgs : geometricSchedule 1 = s := by
    unfold geometricSchedule
    rw [hp]
  have hlen : 1 < (geometricSchedule 1).length := by
    rw [hgs, hs1, hs2]
    simp
  have hLval : (geometricSchedule 1).get? 1 =
      some ((1 : ℚ) * (99 / 100), pyInt (1 * (101 / 100))) := by
    rw [hgs, hs1, hs2]
    rfl
  have hL : (geometricSchedule 1).get? 1 =
      ((List.range (geometricSchedule 1).length).map
        (fun k => ((1 : ℚ) * (99 / 100) ^ k, ⌈((101 : ℚ) / 100) ^ k⌉))).get? 1 := by
    rw [← hshape]
  have hR : ((List.range (geometricSchedule 1).length).map
        (fun k => ((1 : ℚ) * (99 / 100) ^ k, ⌈((101 : ℚ) / 100) ^ k⌉))).get? 1
      = some ((1 : ℚ) * (99 / 100) ^ 1, ⌈((101 : ℚ) / 100) ^ 1⌉) := by
    simp [List.get?_map, List.get?_range, hlen]
  have heq := hLval.symm.trans (hL.trans hR)
  simp only [Option.some.injEq, Prod.mk.injEq] at heq
  have h2 := heq.2
  have hL1 : pyInt (1 * (101 / 100)) = 1 := by
    unfold pyInt
    rw [if_pos (by norm_num)]
    norm_num
  have hR1 : (⌈((101 : ℚ) / 100) ^ 1⌉ : ℤ) = 2 := by
    rw [pow_one, Int.ceil_eq_iff]
    constructor <;> norm_num
  rw [hL1, hR1] at h2
  exact absurd h2 (by norm_num)

/-- C4 amended: for every positive start temperature the k-th emitted
pair is (start × 0.99^k, int(1.01^k)) — `int` truncates, it does not
round up — and when generation stops it is the internal `total_iters`
accumulator (which each pass increases by the next, un-truncated
iteration value) that has reached the 100000 budget; the truncated
counts actually emitted may sum to less. -/
theorem c4_amended (start : ℚ) (hpos : 0 < start) :
    geometricSchedule start =
      (List.range (geometricSchedule start).length).map
        (fun k => (start * (99 / 100) ^ k, pyInt (((101 : ℚ) / 100) ^ k)))
    ∧ (100000 : ℚ) ≤ geometricScheduleTotal start := by
  have h0 : (geometricScheduleLoop 100001 start 1 0).isSome := by
    rw [show (100001 : ℕ) = 100000 + 1 from rfl]
    exact geometricScheduleLoop_isSome 100000 start 1 0 le_rfl (by push_cast; norm_num)
  rw [Option.isSome_iff_exists] at h0
  obtain ⟨⟨s, t⟩, hp⟩ := h0
  have hgs : geometricSchedule start = s := by
    unfold geometricSchedule
    rw [hp]
  have htot : geometricScheduleTotal start = t := by
    unfold geometricScheduleTotal
    rw [hp]
  constructor
  · rw [hgs]
    apply List.ext
    intro n
    by_cases hn : n < s.length
    · have hshape := geometricScheduleLoop_shape 100001 start 1 0 s t hp n hn
      rw [hshape]
      simp [List.get?_map, List.get?_range, hn, one_mul]
    · rw [List.get?_eq_none.2 (le_of_not_lt hn)]
      symm
      rw [List.get?_eq_none]
      simpa using le_of_not_lt hn
  · rw [htot]
    exact geometricScheduleLoop_final_total 100001 start 1 0 s t hp

/-- Witness for C4 amended, at start temperature 1. -/
theorem c4_amended_witness :
    geometricSchedule 1 =
      (List.range (geometricSchedule 1).length).map
        (fun k => ((1 : ℚ) * (99 / 100) ^ k, pyInt (((101 : ℚ) / 100) ^ k)))
    ∧ (100000 : ℚ) ≤ geometricScheduleTotal 1 :=
  c4_amended 1 one_pos

/-- C7: within one generated geometric schedule the temperatures are
strictly decreasing and the emitted integer iteration counts are
non-decreasing (so temperature is in particular non-increasing). -/
theorem c7_schedule_monotonicity (start : ℚ) (hpos : 0 < start) :
    List.Chain' (fun p q => q.1 < p.1 ∧ p.2 ≤ q.2) (geometricSchedule start) := by
  cases hp : geometricScheduleLoop 100001 start 1 0 with
  | none =>
    have hgs : geometricSchedule start = [] := by
      unfold geometricSchedule
      rw [hp]
    rw [hgs]
    exact List.chain'_nil
  | some p =>
    obtain ⟨s, t⟩ := p
    have hgs : geometricSchedule start = s := by
      unfold geometricSchedule
      rw [hp]
    rw [hgs, List.chain'_iff_get]
    intro i hi
    have hi1 : i < s.length := by omega
    have hi2 : i + 1 < s.length := by omega
    have g1 := geometricScheduleLoop_shape 100001 start 1 0 s t hp i hi1
    have g2 := geometricScheduleLoop_shape 100001 start 1 0 s t hp (i + 1) hi2
    rw [List.get?_eq_get hi1] at g1
    rw [List.get?_eq_get hi2] at g2
    simp only [Option.some.injEq] at g1 g2
    rw [g1, g2]
    constructor
    · have hp1 : (0 : ℚ) < (99 / 100) ^ i := pow_pos (by norm_num) i
      rw [pow_succ]
      nlinarith [mul_pos hpos hp1]
    · simp only [one_mul]
      have h1 : (0 : ℚ) ≤ (101 / 100) ^ i := le_of_lt (pow_pos (by norm_num) i)
      have h2 : (0 : ℚ) ≤ (101 / 100) ^ (i + 1) := le_of_lt (pow_pos (by norm_num) (i + 1))
      unfold pyInt
      rw [if_pos h1, if_pos h2]
      exact Int.floor_mono (pow_le_pow_right (by norm_num) (Nat.le_succ i))

/-- Witness for C7, at start temperature 1. -/
theorem c7_schedule_monotonicity_witness :
    List.Chain' (fun p q => q.1 < p.1 ∧ p.2 ≤ q.2) (geometricSchedule 1) :=
  c7_schedule_monotonicity 1 one_pos

end Sudoku

namespace Sudoku

/-- A trial whose first two invocations return GLASS and whose third
returns SUCCESS, none of them late: the loop performs exactly those
three invocations, rewriting the hint and halving-then-updating the
temperature between them. -/
lemma trialLoop_glass_glass_success (tempStep : ℚ → ℚ)
    (e1 e2 e3 : LoopEvent) (rest : List LoopEvent) (temp0 : ℚ)
    (hint0 : Option (List Char)) (o1 o2 o3 r1 r2 r3 f1 f2 f3 : List Char)
    (h1 : e1.elapsed ≤ 90) (h2 : e2.elapsed ≤ 90) (h3 : e3.elapsed ≤ 90)
    (hr1 : e1.result = SolverResult.exited 0 o1 r1)
    (hr2 : e2.result = SolverResult.exited 0 o2 r2)
    (hr3 : e3.result = SolverResult.exited 0 o3 r3)
    (hp1 : parseSolverOutput o1 = (("GLASS").toList, f1))
    (hp2 : parseSolverOutput o2 = (("GLASS").toList, f2))
    (hp3 : parseSolverOutput o3 = (("SUCCESS").toList, f3)) :
    trialLoop tempStep (e1 :: e2 :: e3 :: rest) temp0 hint0 =
      ([⟨e1.elapsed, tempStep temp0, hint0, some f1, e1.result⟩,
        ⟨e2.elapsed, tempStep (tempStep temp0 * (1 / 2)), some f1, some f2, e2.result⟩,
        ⟨e3.elapsed, tempStep (tempStep (tempStep temp0 * (1 / 2)) * (1 / 2)),
          some f2, some f2, e3.result⟩],
       TrialEnd.success (e3.successElapsed * 1000)) := by
  have q1a : (parseSolverOutput o1).1 = ("GLASS").toList := by rw [hp1]
  have q1b : (parseSolverOutput o1).2 = f1 := by rw [hp1]
  have q2a : (parseSolverOutput o2).1 = ("GLASS").toList := by rw [hp2]
  have q2b : (parseSolverOutput o2).2 = f2 := by rw [hp2]
  have q3a : (parseSolverOutput o3).1 = ("SUCCESS").toList := by rw [hp3]
  rw [trialLoop_glass_step tempStep e1 (e2 :: e3 :: rest) temp0 hint0 o1 r1
    (not_lt.2 h1) hr1 q1a, q1b]
  rw [trialLoop_glass_step tempStep e2 (e3 :: rest) (tempStep temp0 * (1 / 2))
    (some f1) o2 r2 (not_lt.2 h2) hr2 q2a, q2b]
  rw [trialLoop_success_step tempStep e3 rest
    (tempStep (tempStep temp0 * (1 / 2)) * (1 / 2)) (some f2) o3 r3
    (not_lt.2 h3) hr3 q3a]

/-- C2 amended: with outcomes GLASS, GLASS, SUCCESS and the deadline
never expiring, both schedule policies perform exactly three
invocations and on each GLASS truncate-overwrite the hint with the
returned terminal state; the geometric variant builds the three
schedules at temperatures 1, 1/2, 1/4 (exactly halved each time),
while the remelt variant additionally applies its per-iteration 0.99
decay, building them at scales 0.99, 0.490050, 0.242574..., a ratio of
0.495 rather than 0.5. -/
theorem c2_glass_glass_success
    (e1 e2 e3 : LoopEvent) (rest : List LoopEvent)
    (o1 o2 o3 r1 r2 r3 f1 f2 f3 : List Char)
    (h1 : e1.elapsed ≤ 90) (h2 : e2.elapsed ≤ 90) (h3 : e3.elapsed ≤ 90)
    (hr1 : e1.result = SolverResult.exited 0 o1 r1)
    (hr2 : e2.result = SolverResult.exited 0 o2 r2)
    (hr3 : e3.result = SolverResult.exited 0 o3 r3)
    (hp1 : parseSolverOutput o1 = (("GLASS").toList, f1))
    (hp2 : parseSolverOutput o2 = (("GLASS").toList, f2))
    (hp3 : parseSolverOutput o3 = (("SUCCESS").toList, f3)) :
    geomTrial (e1 :: e2 :: e3 :: rest) =
      ([⟨e1.elapsed, 1, none, some f1, e1.result⟩,
        ⟨e2.elapsed, 1 / 2, some f1, some f2, e2.result⟩,
        ⟨e3.elapsed, 1 / 4, some f2, some f2, e3.result⟩],
       TrialEnd.success (e3.successElapsed * 1000))
    ∧ remeltTrial (e1 :: e2 :: e3 :: rest) =
      ([⟨e1.elapsed, 99 / 100, none, some f1, e1.result⟩,
        ⟨e2.elapsed, 9801 / 20000, some f1, some f2, e2.result⟩,
        ⟨e3.elapsed, 970299 / 4000000, some f2, some f2, e3.result⟩],
       TrialEnd.success (e3.successElapsed * 1000)) := by
  constructor
  · unfold geomTrial
    rw [trialLoop_glass_glass_success geometricTempReset e1 e2 e3 rest 1 none
      o1 o2 o3 r1 r2 r3 f1 f2 f3 h1 h2 h3 hr1 hr2 hr3 hp1 hp2 hp3]
    norm_num [geometricTempReset]
  · unfold remeltTrial
    rw [trialLoop_glass_glass_success remeltTempStep e1 e2 e3 rest 1 none
      o1 o2 o3 r1 r2 r3 f1 f2 f3 h1 h2 h3 hr1 hr2 hr3 hp1 hp2 hp3]
    norm_num [remeltTempStep]

/-- Witness for C2 amended on a concrete three-event script. -/
theorem c2_glass_glass_success_witness :
    geomTrial [evGlass1, evGlass2, evSuccess] =
      ([⟨10, 1, none, some (("first glassy board").toList), evGlass1.result⟩,
        ⟨20, 1 / 2, some (("first glassy board").toList),
          some (("second glassy board").toList), evGlass2.result⟩,
        ⟨30, 1 / 4, some (("second glassy board").toList),
          some (("second glassy board").toList), evSuccess.result⟩],
       TrialEnd.success (30 * 1000))
    ∧ remeltTrial [evGlass1, evGlass2, evSuccess] =
      ([⟨10, 99 / 100, none, some (("first glassy board").toList), evGlass1.result⟩,
        ⟨20, 9801 / 20000, some (("first glassy board").toList),
          some (("second glassy board").toList), evGlass2.result⟩,
        ⟨30, 970299 / 4000000, some (("second glassy board").toList),
          some (("second glassy board").toList), evSuccess.result⟩],
       TrialEnd.success (30 * 1000)) :=
  c2_glass_glass_success evGlass1 evGlass2 evSuccess []
    glassOut1 glassOut2 successOut [] [] []
    (("first glassy board").toList) (("second glassy board").toList)
    (("solved board").toList)
    (by norm_num [evGlass1]) (by norm_num [evGlass2]) (by norm_num [evSuccess])
    rfl rfl rfl (by decide) (by decide) (by decide)

/-- C2 fails as stated for the remelt policy: on the concrete
GLASS, GLASS, SUCCESS script the three schedules are built at scales
0.99, 0.49005, 0.242574...; the second is not half the first. -/
theorem c2_counterexample :
    ((remeltTrial [evGlass1, evGlass2, evSuccess]).1.map fun r => r.tempUsed)
      = [99 / 100, 9801 / 20000, 970299 / 4000000]
    ∧ ¬ ((9801 : ℚ) / 20000 = (1 / 2) * (99 / 100)) := by
  constructor
  · unfold remeltTrial
    rw [trialLoop_glass_glass_success remeltTempStep evGlass1 evGlass2 evSuccess [] 1 none
      glassOut1 glassOut2 successOut [] [] []
      (("first glassy board").toList) (("second glassy board").toList)
      (("solved board").toList)
      (by norm_num [evGlass1]) (by norm_num [evGlass2]) (by norm_num [evSuccess])
      rfl rfl rfl (by decide) (by decide) (by decide)]
    norm_num [remeltTempStep]
  · norm_num

/-- C3 amended: the remaining budget is checked before every solver
invocation — every performed invocation's check reading is at most
90 — and the trial breaks out with no invocation as soon as the check
reads strictly more than 90 (remaining budget strictly negative); this
holds for both schedule policies, which share the loop. -/
theorem c3_deadline_check (tempStep : ℚ → ℚ) :
    (∀ (s : List LoopEvent) (temp : ℚ) (hint : Option (List Char))
        (rec : InvocationRecord),
        rec ∈ (trialLoop tempStep s temp hint).1 → rec.checkElapsed ≤ 90)
    ∧ ∀ (e : LoopEvent) (rest : List LoopEvent) (temp : ℚ)
        (hint : Option (List Char)), 90 < e.elapsed →
        trialLoop tempStep (e :: rest) temp hint = ([], TrialEnd.noResult) :=
  ⟨trialLoop_check_le tempStep,
   fun e rest temp hint h => trialLoop_deadline tempStep e rest temp hint h⟩

/-- Witness for C3 amended: a check reading of 91 ends the trial with
no invocation. -/
theorem c3_deadline_check_witness :
    trialLoop geometricTempReset [⟨91, SolverResult.timedOut, 91⟩] 1 none
      = ([], TrialEnd.noResult) :=
  (c3_deadline_check geometricTempReset).2 ⟨91, SolverResult.timedOut, 91⟩ [] 1 none
    (by norm_num)

/-- C3 fails as stated: when the check reads exactly 90 (remaining
budget exactly zero) the loop does not transition to TIMED_OUT; it
still performs a solver invocation, and here the trial even succeeds. -/
theorem c3_counterexample :
    (geomTrial [evDeadlineEdge]).1.length = 1
    ∧ (geomTrial [evDeadlineEdge]).2 = TrialEnd.success (90 * 1000) := by
  have h90 : ¬ (90 : ℚ) < evDeadlineEdge.elapsed := by norm_num [evDeadlineEdge]
  unfold geomTrial
  rw [trialLoop_success_step geometricTempReset evDeadlineEdge [] 1 none successOut []
    h90 rfl (by decide)]
  refine ⟨rfl, ?_⟩
  norm_num [evDeadlineEdge]

/-- C9: an exit-0 invocation whose first line is neither GLASS nor
SUCCESS raises no error and changes nothing: the loop goes on with the
same hint arguments and, in the geometric variant, the same base
temperature (the remelt variant reapplies only its regular
per-iteration 0.99 decay). -/
theorem c9_unknown_tag_keeps_state
    (e : LoopEvent) (rest : List LoopEvent) (temp : ℚ) (hint : Option (List Char))
    (out err : List Char)
    (h90 : e.elapsed ≤ 90) (hres : e.result = SolverResult.exited 0 out err)
    (h1 : (parseSolverOutput out).1 ≠ ("GLASS").toList)
    (h2 : (parseSolverOutput out).1 ≠ ("SUCCESS").toList)
    (htemp : 1 / 100 ≤ temp) :
    trialLoop geometricTempReset (e :: rest) temp hint =
      (⟨e.elapsed, temp, hint, hint, e.result⟩ ::
        (trialLoop geometricTempReset rest temp hint).1,
       (trialLoop geometricTempReset rest temp hint).2)
    ∧ trialLoop remeltTempStep (e :: rest) temp hint =
      (⟨e.elapsed, temp * (99 / 100), hint, hint, e.result⟩ ::
        (trialLoop remeltTempStep rest (temp * (99 / 100)) hint).1,
       (trialLoop remeltTempStep rest (temp * (99 / 100)) hint).2) := by
  have hg : geometricTempReset temp = temp := by
    unfold geometricTempReset
    rw [if_neg (not_lt.2 htemp)]
  have hr : remeltTempStep temp = temp * (99 / 100) := by
    unfold remeltTempStep
    rw [if_neg (not_lt.2 htemp)]
  constructor
  · rw [trialLoop_unknown_step geometricTempReset e rest temp hint out err
      (not_lt.2 h90) hres h1 h2, hg]
  · rw [trialLoop_unknown_step remeltTempStep e rest temp hint out err
      (not_lt.2 h90) hres h1 h2, hr]

/-- Witness for C9 on a concrete unknown-tag event. -/
theorem c9_unknown_tag_keeps_state_witness :
    trialLoop geometricTempReset [evWeird] 1 none =
      (⟨evWeird.elapsed, 1, none, none, evWeird.result⟩ ::
        (trialLoop geometricTempReset [] 1 none).1,
       (trialLoop geometricTempReset [] 1 none).2)
    ∧ trialLoop remeltTempStep [evWeird] 1 none =
      (⟨evWeird.elapsed, 1 * (99 / 100), none, none, evWeird.result⟩ ::
        (trialLoop remeltTempStep [] (1 * (99 / 100)) none).1,
       (trialLoop remeltTempStep [] (1 * (99 / 100)) none).2) :=
  c9_unknown_tag_keeps_state evWeird [] 1 none weirdOut []
    (by norm_num [evWeird]) rfl (by decide) (by decide) (by norm_num)

/-- C5 fails as stated: on the all-failed vector the geometric
aggregation averages an empty selection (NaN, modelled `none`) while
the guarded remelt aggregation writes 0; the two variants do not write
identical records, and there is no single shared convention. -/
theorem c5_counterexample :
    aggGeometric [-1, -1, -1, -1] ≠ aggRemelt [-1, -1, -1, -1] := by
  have hall : ∀ x ∈ ([-1, -1, -1, -1] : List ℚ), x < 0 := by
    intro x hx
    simp only [List.mem_cons, List.not_mem_nil, or_false] at hx
    rcases hx with h | h | h | h <;> rw [h] <;> norm_num
  have hfil : ([-1, -1, -1, -1] : List ℚ).filter (fun x => 0 ≤ x) = [] := by
    rw [List.filter_eq_nil]
    intro a ha
    simp only [decide_eq_true_eq]
    exact not_le.2 (hall a ha)
  have hg : (aggGeometric [-1, -1, -1, -1]).2 = none := by
    simp [aggGeometric, npAverage, hfil]
  have hr : (aggRemelt [-1, -1, -1, -1]).2 = some 0 := by
    simp [aggRemelt, not_not_intro hall]
  intro h
  rw [h, hr] at hg
  cases hg

/-- C5 amended: whenever at least one of the four trials succeeded the
two aggregation steps write identical records; when all four fail they
diverge — the geometric variant's average is the empty-selection NaN
(modelled `none`) while the remelt variant writes 0. -/
theorem c5_aggregation (times : List ℚ) :
    (¬ (∀ x ∈ times, x < 0) → aggGeometric times = aggRemelt times)
    ∧ ((∀ x ∈ times, x < 0) →
        (aggGeometric times).2 = none ∧ (aggRemelt times).2 = some 0) := by
  constructor
  · intro h
    simp [aggGeometric, aggRemelt, h]
  · intro h
    constructor
    · have hfil : times.filter (fun x => 0 ≤ x) = [] := by
        rw [List.filter_eq_nil]
        intro a ha
        simp only [decide_eq_true_eq]
        exact not_le.2 (h a ha)
      simp [aggGeometric, npAverage, hfil]
    · simp [aggRemelt, not_not_intro h]

/-- Witness for C5 amended on the spec's example vector. -/
theorem c5_aggregation_witness :
    ¬ (∀ x ∈ ([12, -1, -1, 8] : List ℚ), x < 0)
    ∧ aggGeometric [12, -1, -1, 8] = aggRemelt [12, -1, -1, 8] := by
  have hno : ¬ (∀ x ∈ ([12, -1, -1, 8] : List ℚ), x < 0) := by
    intro hcon
    have h12 := hcon 12 (by simp)
    norm_num at h12
  exact ⟨hno, (c5_aggregation [12, -1, -1, 8]).1 hno⟩

/-- C6: a non-zero solver exit in any performed invocation makes the
trial end in the uncaught `Exception`, which aborts the whole benchmark
run: only the records of the puzzles completed before it remain,
whatever trials and puzzles were still queued.  Stated for an arbitrary
temperature policy and aggregation, so it covers all four annealing
benchmark variants. -/
theorem c6_nonzero_exit_aborts
    (tempStep : ℚ → ℚ) (agg : List ℚ → ℚ × Option ℚ)
    (pre : List (List (List LoopEvent))) (rs : List (ℚ × Option ℚ))
    (tpre : List (List LoopEvent)) (ms : List ℚ)
    (s : List LoopEvent) (rec : InvocationRecord) (c : ℤ) (out err : List Char)
    (h0 : runPuzzlesWith tempStep agg pre = (rs, BenchEnd.done))
    (h1 : runTrialsWith tempStep tpre = TrialsOut.ok ms)
    (h2 : rec ∈ (trialLoop tempStep s 1 none).1)
    (h3 : rec.result = SolverResult.exited c out err)
    (h4 : c ≠ 0) :
    ∀ (tpost : List (List LoopEvent)) (post : List (List (List LoopEvent))),
      runPuzzlesWith tempStep agg (pre ++ (tpre ++ s :: tpost) :: post)
        = (rs, BenchEnd.aborted (out ++ '\n' :: err)) := by
  intro tpost post
  have hT : (trialLoop tempStep s 1 none).2 = TrialEnd.fatal (out ++ '\n' :: err) :=
    trialLoop_fatal_of_mem tempStep s 1 none rec c out err h2 h3 h4
  have hTr : runTrialsWith tempStep (tpre ++ s :: tpost)
      = TrialsOut.fatal (out ++ '\n' :: err) :=
    runTrialsWith_fatal tempStep tpre ms s _ tpost h1 hT
  have hP := runPuzzlesWith_append tempStep agg pre rs h0 ((tpre ++ s :: tpost) :: post)
  rw [hP, runPuzzlesWith_fatal_head tempStep agg _ _ post hTr]
  simp

/-- Witness for C6: a single crashing invocation aborts a one-puzzle
run with no record written. -/
theorem c6_nonzero_exit_aborts_witness :
    runPuzzlesWith geometricTempReset aggGeometric [[[evCrash]]]
      = ([], BenchEnd.aborted (("crash output").toList ++ '\n' :: ("crash trace").toList)) := by
  have hmem : (⟨evCrash.elapsed, geometricTempReset 1, none, none, evCrash.result⟩ :
      InvocationRecord) ∈ (trialLoop geometricTempReset [evCrash] 1 none).1 := by
    rw [trialLoop_fatal_step geometricTempReset evCrash [] 1 none 1
      (("crash output").toList) (("crash trace").toList)
      (by norm_num [evCrash]) rfl (by decide)]
    exact List.mem_singleton.2 rfl
  exact c6_nonzero_exit_aborts geometricTempReset aggGeometric [] [] [] [] [evCrash]
    ⟨evCrash.elapsed, geometricTempReset 1, none, none, evCrash.result⟩ 1
    (("crash output").toList) (("crash trace").toList)
    rfl rfl hmem rfl (by decide) [] []

/-- C8: an invocation timeout is a local failure: the trial ends with
no fatal error, its times entry stays the -1 sentinel, and the run
carries on with the remaining trials of the puzzle and the remaining
puzzles.  Stated for an arbitrary temperature policy and aggregation. -/
theorem c8_timeout_is_local
    (tempStep : ℚ → ℚ) (agg : List ℚ → ℚ × Option ℚ)
    (s : List LoopEvent) (rec : InvocationRecord)
    (h1 : rec ∈ (trialLoop tempStep s 1 none).1)
    (h2 : rec.result = SolverResult.timedOut) :
    (trialLoop tempStep s 1 none).2 = TrialEnd.noResult
    ∧ ∀ (tpre : List (List LoopEvent)) (ms1 : List ℚ) (tpost : List (List LoopEvent))
        (ms2 : List ℚ) (pre : List (List (List LoopEvent))) (rs : List (ℚ × Option ℚ))
        (post : List (List (List LoopEvent))),
        runTrialsWith tempStep tpre = TrialsOut.ok ms1 →
        runTrialsWith tempStep tpost = TrialsOut.ok ms2 →
        runPuzzlesWith tempStep agg pre = (rs, BenchEnd.done) →
        runPuzzlesWith tempStep agg (pre ++ (tpre ++ s :: tpost) :: post)
          = (rs ++ agg (ms1 ++ (-1) :: ms2) :: (runPuzzlesWith tempStep agg post).1,
             (runPuzzlesWith tempStep agg post).2) := by
  have hend := trialLoop_noResult_of_mem_timeout tempStep s 1 none rec h1 h2
  refine ⟨hend, ?_⟩
  intro tpre ms1 tpost ms2 pre rs post hpre hpost hdone
  have hTr : runTrialsWith tempStep (tpre ++ s :: tpost)
      = TrialsOut.ok (ms1 ++ (-1) :: ms2) :=
    runTrialsWith_noResult tempStep tpre ms1 s tpost ms2 hpre hend hpost
  have hP := runPuzzlesWith_append tempStep agg pre rs hdone ((tpre ++ s :: tpost) :: post)
  rw [hP]
  simp only [runPuzzlesWith, hTr]

/-- Witness for C8: a one-puzzle run whose single trial times out
records the all-failed vector and completes normally. -/
theorem c8_timeout_is_local_witness :
    (trialLoop geometricTempReset [evTimeout] 1 none).2 = TrialEnd.noResult
    ∧ runPuzzlesWith geometricTempReset aggGeometric [[[evTimeout]]]
      = ([aggGeometric [-1]], BenchEnd.done) := by
  have hmem : (⟨evTimeout.elapsed, geometricTempReset 1, none, none, evTimeout.result⟩ :
      InvocationRecord) ∈ (trialLoop geometricTempReset [evTimeout] 1 none).1 := by
    rw [trialLoop_timeout geometricTempReset evTimeout [] 1 none
      (by norm_num [evTimeout]) rfl]
    exact List.mem_singleton.2 rfl
  have H := c8_timeout_is_local geometricTempReset aggGeometric [evTimeout]
    ⟨evTimeout.elapsed, geometricTempReset 1, none, none, evTimeout.result⟩ hmem rfl
  exact ⟨H.1, H.2 [] [] [] [] [] [] [] rfl rfl rfl⟩

/-- C10: a projection worker whose solver exits 0 with an unrecognised
first output line returns Python's implicit `None` (modelled
`Except.ok none`) — a value that is neither the -1 failure sentinel nor
an elapsed-milliseconds number — in both the paper and the top1465
workers. -/
theorem c10_unknown_tag_returns_nothing :
    threadBenchmarkPaper 0 5 (SolverResult.exited 0 weirdOut []) = Except.ok none
    ∧ threadBenchmarkTop1465 0 5 (SolverResult.exited 0 weirdOut []) = Except.ok none
    ∧ (Except.ok none : Except (List Char) (Option ℚ)) ≠ Except.ok (some (-1))
    ∧ (Except.ok none : Except (List Char) (Option ℚ))
        ≠ Except.ok (some ((5 - 0) * 1000)) := by
  refine ⟨?_, ?_, by simp, by simp⟩
  · simp only [threadBenchmarkPaper]
    rw [if_neg (by decide : ¬ ((0 : ℤ) ≠ 0)), if_neg (by decide), if_neg (by decide)]
  · simp only [threadBenchmarkTop1465]
    rw [if_neg (by decide : ¬ ((0 : ℤ) ≠ 0)), if_neg (by decide), if_neg (by decide)]

end Sudoku
